import Mathlib

/-!
Verification of the discount-evaluation pipeline of the `unifize-assessment`
repository.  The Python source is shallowly embedded: `decimal.Decimal` values
are modelled as exact rationals (`ℚ`) with the context-default `quantize`
rounding (`ROUND_HALF_EVEN` to two decimal places) made explicit at each
`quantize(Decimal("0.01"))` call site; Python dictionaries become insertion
ordered association lists; Python truthiness of `Optional` strings and
`Decimal` values is modelled explicitly.
-/

namespace Spec2Proof

attribute [local semireducible] Rat.mul Rat.inv Rat.add Rat.sub

/-! ### Rounding: `Decimal.quantize(Decimal("0.01"))` with `ROUND_HALF_EVEN` -/

/-- Round a rational to the nearest integer, ties to the even integer.  This is
the scaled form of Python's default `ROUND_HALF_EVEN` decimal rounding.
`Rat.floor` is used rather than `Int.floor` so that the function evaluates by
kernel reduction on concrete inputs. -/
def roundHalfEven (x : ℚ) : ℤ :=
  if x - Rat.floor x < 1/2 then Rat.floor x
  else if x - Rat.floor x > 1/2 then Rat.floor x + 1
  else if Rat.floor x % 2 = 0 then Rat.floor x else Rat.floor x + 1

/-- `Decimal.quantize(Decimal("0.01"))`: round to two decimal places,
ties to even. -/
def q2 (x : ℚ) : ℚ := (roundHalfEven (100 * x) : ℚ) / 100

/-! ### Data model (`src/models.py`)

`Decimal` fields are rationals.  Python's `Optional` values become `Option`;
`set` fields become lists (used only for membership and intersection
emptiness tests).  String rendering of amounts inside human-readable messages
uses a canonical rational notation rather than Python's `Decimal` exponent
tracking; no verified property depends on the digit string of an amount. -/

inductive BrandTier
  | premium
  | regular
  | budget
deriving DecidableEq, Repr

inductive CustomerTier
  | new
  | silver
  | gold
  | platinum
deriving DecidableEq, Repr

/-- `BrandTier.value` in `models.py` (the string payload of the enum). -/
def BrandTier.value : BrandTier → String
  | .premium => "premium"
  | .regular => "regular"
  | .budget => "budget"

/-- `CustomerTier.value` in `models.py` (the string payload of the enum). -/
def CustomerTier.value : CustomerTier → String
  | .new => "new"
  | .silver => "silver"
  | .gold => "gold"
  | .platinum => "platinum"

structure Product where
  id : String
  brand : String
  brand_tier : BrandTier
  category : String
  base_price : ℚ
  current_price : ℚ
deriving DecidableEq, Repr

structure CartItem where
  product : Product
  quantity : Nat
  size : String
deriving DecidableEq, Repr

/-- `CartItem.get_subtotal`: `current_price * quantity`. -/
def CartItem.get_subtotal (item : CartItem) : ℚ :=
  item.product.current_price * item.quantity

structure PaymentInfo where
  method : String
  bank_name : Option String := none
  card_type : Option String := none
deriving DecidableEq, Repr

structure CustomerProfile where
  id : String
  tier : CustomerTier
  total_purchases : ℚ := 0
deriving DecidableEq, Repr

/-- `DiscountedPrice`; `applied_discounts` is a `Dict[str, Decimal]`, modelled
as an insertion-ordered association list (Python dicts preserve insertion
order, and the orchestrator only inserts fresh keys). -/
structure DiscountedPrice where
  original_price : ℚ
  final_price : ℚ
  applied_discounts : List (String × ℚ)
  message : String
deriving DecidableEq, Repr

structure ValidationResult where
  is_valid : Bool
  errors : List String := []
deriving DecidableEq, Repr

/-- `ValidationResult.add_error`: sets `is_valid = False` and appends. -/
def ValidationResult.add_error (r : ValidationResult) (e : String) : ValidationResult :=
  { is_valid := false, errors := r.errors ++ [e] }

/-- One Python `if cond: result.add_error(msg)` block. -/
def ValidationResult.addIf (r : ValidationResult) (c : Prop) [Decidable c]
    (e : String) : ValidationResult :=
  if c then r.add_error e else r

/-- `ValidationResult.error_message`: errors joined by `"; "`. -/
def ValidationResult.error_message (r : ValidationResult) : String :=
  if r.errors = [] then "" else String.intercalate "; " r.errors

/-! ### Python truthiness and string rendering helpers -/

/-- Python truthiness of an `Optional[str]`: `None` and `""` are falsy. -/
def strTruthy : Option String → Bool
  | none => false
  | some s => s != ""

/-- Python truthiness of an `Optional[Decimal]`: `None` and `0` are falsy. -/
def decTruthy : Option ℚ → Bool
  | none => false
  | some x => x != 0

/-- Python truthiness of an `Optional[Set[...]]`: `None` and the empty set
are falsy. -/
def optListTruthy {α : Type} : Option (List α) → Bool
  | none => false
  | some l => !l.isEmpty

/-- `str(x)` for an `Optional[str]` as Python renders it in an f-string. -/
def optStr : Option String → String
  | none => "None"
  | some s => s

/-- Canonical rendering of a rational amount inside a message string. -/
def ratStr (x : ℚ) : String :=
  if x.den = 1 then toString x.num else toString x.num ++ "/" ++ toString x.den

/-! ### Strategy layer (`src/strategies/`)

Configuration dictionaries are association lists; `dict.get` is
`List.lookup`.  The Python `calculate` methods of the brand and category
strategies mutate `current_price` on the cart items of the context; the
embedding returns the updated cart alongside the total. -/

structure DiscountContext where
  cart_items : List CartItem
  customer : CustomerProfile
  payment_info : Option PaymentInfo := none
  voucher_code : Option String := none
deriving Repr

/-- Running cart total `sum(item.get_subtotal() for item in items)`. -/
def cartTotal (items : List CartItem) : ℚ :=
  items.foldl (fun acc it => acc + it.get_subtotal) 0

/-- Original cart total `sum(item.product.base_price * item.quantity ...)`. -/
def baseTotal (items : List CartItem) : ℚ :=
  items.foldl (fun acc it => acc + it.product.base_price * it.quantity) 0

/-- Per-item body of `BrandDiscountStrategy.calculate`: discount on
`base_price`, `current_price` set to `base_price - item_discount`; the
second component is `item_discount * quantity`. -/
def brandCalcItem (brand_discounts : List (String × ℚ)) (item : CartItem) :
    CartItem × ℚ :=
  match brand_discounts.lookup item.product.brand with
  | some pct =>
      let d := q2 (item.product.base_price * pct / 100)
      ({ item with product :=
          { item.product with current_price := item.product.base_price - d } },
        d * item.quantity)
  | none => (item, 0)

/-- `BrandDiscountStrategy.calculate`: returns the mutated cart and
`total_discount.quantize(Decimal("0.01"))`. -/
def brandCalculate (brand_discounts : List (String × ℚ)) (items : List CartItem) :
    List CartItem × ℚ :=
  ((items.map (brandCalcItem brand_discounts)).map Prod.fst,
    q2 (((items.map (brandCalcItem brand_discounts)).map Prod.snd).foldl (· + ·) 0))

/-- Per-item body of `CategoryDiscountStrategy.calculate`: discount on
`current_price`, which is then decremented. -/
def categoryCalcItem (category_discounts : List (String × ℚ)) (item : CartItem) :
    CartItem × ℚ :=
  match category_discounts.lookup item.product.category with
  | some pct =>
      let d := q2 (item.product.current_price * pct / 100)
      ({ item with product :=
          { item.product with current_price := item.product.current_price - d } },
        d * item.quantity)
  | none => (item, 0)

/-- `CategoryDiscountStrategy.calculate`. -/
def categoryCalculate (category_discounts : List (String × ℚ)) (items : List CartItem) :
    List CartItem × ℚ :=
  ((items.map (categoryCalcItem category_discounts)).map Prod.fst,
    q2 (((items.map (categoryCalcItem category_discounts)).map Prod.snd).foldl (· + ·) 0))

/-- `VoucherConfig` after `__post_init__` (the `None` set fields have been
replaced by empty sets). -/
structure VoucherConfig where
  code : String
  discount_percentage : ℚ
  min_cart_value : Option ℚ := none
  excluded_brands : List String := []
  allowed_categories : Option (List String) := none
  excluded_brand_tiers : List BrandTier := []
  min_customer_tier : Option CustomerTier := none
deriving DecidableEq, Repr

structure BankOfferConfig where
  bank_name : String
  discount_percentage : ℚ
  card_type : Option String := none
  min_transaction_value : Option ℚ := none
deriving DecidableEq, Repr

/-- `VoucherDiscountStrategy.calculate`. -/
def voucherCalculate (vouchers : List (String × VoucherConfig))
    (ctx : DiscountContext) : ℚ :=
  if strTruthy ctx.voucher_code then
    match vouchers.lookup (ctx.voucher_code.getD "") with
    | none => 0
    | some voucher =>
        q2 (cartTotal ctx.cart_items * voucher.discount_percentage / 100)
  else 0

/-- `tier_order.index` on `[NEW, SILVER, GOLD, PLATINUM]`. -/
def tierOrderIndex : CustomerTier → Nat
  | .new => 0
  | .silver => 1
  | .gold => 2
  | .platinum => 3

/-- `VoucherDiscountStrategy.validate`: early return for a missing or unknown
code, then all five checks run unconditionally, each appending its own error
to the shared `ValidationResult`. -/
def voucherValidate (vouchers : List (String × VoucherConfig))
    (ctx : DiscountContext) : ValidationResult :=
  let result : ValidationResult := { is_valid := true }
  if !(strTruthy ctx.voucher_code) then
    result.add_error "No voucher code provided"
  else
    let code := ctx.voucher_code.getD ""
    match vouchers.lookup code with
    | none => result.add_error ("Voucher code '" ++ code ++ "' is invalid")
    | some voucher =>
        let result := result.addIf
          (decTruthy voucher.min_cart_value = true ∧
            cartTotal ctx.cart_items < voucher.min_cart_value.getD 0)
          ("Minimum cart value of ₹" ++ ratStr (voucher.min_cart_value.getD 0)
            ++ " not met (current: ₹" ++ ratStr (cartTotal ctx.cart_items) ++ ")")
        let result := result.addIf
          (voucher.excluded_brands ≠ [] ∧
            ((ctx.cart_items.map (fun it => it.product.brand)).filter
              (fun b => voucher.excluded_brands.contains b)).eraseDups ≠ [])
          ("Voucher not valid for brands: " ++ String.intercalate ", "
            ((ctx.cart_items.map (fun it => it.product.brand)).filter
              (fun b => voucher.excluded_brands.contains b)).eraseDups)
        let result := result.addIf
          (optListTruthy voucher.allowed_categories = true ∧
            ((ctx.cart_items.map (fun it => it.product.category)).filter
              (fun c => !((voucher.allowed_categories.getD []).contains c))).eraseDups ≠ [])
          ("Voucher only valid for categories: " ++ String.intercalate ", "
            (voucher.allowed_categories.getD []))
        let result := result.addIf
          (voucher.excluded_brand_tiers ≠ [] ∧
            ((ctx.cart_items.map (fun it => it.product.brand_tier)).filter
              (fun t => voucher.excluded_brand_tiers.contains t)).eraseDups ≠ [])
          ("Voucher not valid for " ++ String.intercalate ", "
            ((((ctx.cart_items.map (fun it => it.product.brand_tier)).filter
              (fun t => voucher.excluded_brand_tiers.contains t)).eraseDups).map
                BrandTier.value) ++ " brand products")
        let result :=
          match voucher.min_customer_tier with
          | some required =>
              result.addIf
                (tierOrderIndex ctx.customer.tier < tierOrderIndex required)
                ("Voucher requires " ++ required.value ++ " membership (current: "
                  ++ ctx.customer.tier.value ++ ")")
          | none => result
        result

/-- `BankOfferStrategy.calculate`. -/
def bankCalculate (bank_offers : List (String × BankOfferConfig))
    (ctx : DiscountContext) : ℚ :=
  match ctx.payment_info with
  | none => 0
  | some payment =>
      if !(strTruthy payment.bank_name) then 0
      else
        match bank_offers.lookup (payment.bank_name.getD "") with
        | none => 0
        | some offer =>
            if strTruthy offer.card_type ∧ payment.card_type ≠ offer.card_type then 0
            else
              let cart_total := cartTotal ctx.cart_items
              if decTruthy offer.min_transaction_value ∧
                  cart_total < offer.min_transaction_value.getD 0 then 0
              else q2 (cart_total * offer.discount_percentage / 100)

/-- `BankOfferStrategy.validate`. -/
def bankValidate (bank_offers : List (String × BankOfferConfig))
    (ctx : DiscountContext) : ValidationResult :=
  let result : ValidationResult := { is_valid := true }
  match ctx.payment_info with
  | none => result
  | some payment =>
      if !(strTruthy payment.bank_name) then result
      else
        match bank_offers.lookup (payment.bank_name.getD "") with
        | none =>
            result.add_error ("No offers available for " ++ payment.bank_name.getD "")
        | some offer =>
            let result :=
              if strTruthy offer.card_type ∧ payment.card_type ≠ offer.card_type then
                result.add_error (payment.bank_name.getD "" ++ " offer requires "
                  ++ offer.card_type.getD "" ++ " card (provided: "
                  ++ optStr payment.card_type ++ ")")
              else result
            let result :=
              if decTruthy offer.min_transaction_value then
                let cart_total := cartTotal ctx.cart_items
                if cart_total < offer.min_transaction_value.getD 0 then
                  result.add_error ("Minimum transaction value of ₹"
                    ++ ratStr (offer.min_transaction_value.getD 0)
                    ++ " not met (current: ₹" ++ ratStr cart_total ++ ")")
                else result
              else result
            result

/-! ### Orchestrator (`src/discount_service.py`)

The caller's cart is deep-copied at the head of both pipelines, so the
working cart is an independent value; in the value-level embedding the copy
is the argument itself and mutation is explicit state passing.  An aliasing
model of the copy appears further below for the frame properties. -/

structure DiscountService where
  brand_discounts : List (String × ℚ)
  category_discounts : List (String × ℚ)
  vouchers : List (String × VoucherConfig)
  bank_offers : List (String × BankOfferConfig)
  allow_discount_stacking : Bool := true

/-- Result of the body of `_calculate_stacked_discounts` before final-price
assembly, with the message log split by pipeline step (the source appends to
one list in the same order: brand and category, then voucher, then bank). -/
structure StackedRun where
  original_total : ℚ
  cart_after : List CartItem
  applied_discounts : List (String × ℚ)
  bc_msgs : List String
  voucher_msgs : List String
  bank_msgs : List String
deriving Repr

/-- Steps 1-6 of `_calculate_stacked_discounts`.  The source also computes a
running cart total net of the voucher discount just before the bank step
(`current_cart_total -= voucher_discount`); that local variable is never
read afterwards — the bank strategy re-sums `item.get_subtotal()` from the
shared context — so it does not appear here. -/
def stackedCore (svc : DiscountService) (cart_items : List CartItem)
    (customer : CustomerProfile) (payment_info : Option PaymentInfo)
    (voucher_code : Option String) : StackedRun :=
  let original_total := baseTotal cart_items
  let step1 := brandCalculate svc.brand_discounts cart_items
  let cart1 := step1.1
  let brand_discount := step1.2
  let applied1 := if brand_discount > 0 then [("Brand Discount", brand_discount)] else []
  let msgs1 := if brand_discount > 0 then ["Brand discount: ₹" ++ ratStr brand_discount] else []
  let step2 := categoryCalculate svc.category_discounts cart1
  let cart2 := step2.1
  let category_discount := step2.2
  let applied2 := applied1 ++
    (if category_discount > 0 then [("Category Discount", category_discount)] else [])
  let msgs2 := msgs1 ++
    (if category_discount > 0 then ["Category discount: ₹" ++ ratStr category_discount] else [])
  let ctx : DiscountContext :=
    { cart_items := cart2, customer := customer,
      payment_info := payment_info, voucher_code := voucher_code }
  let voucherStep : List (String × ℚ) × List String :=
    if strTruthy voucher_code then
      let voucher_result := voucherValidate svc.vouchers ctx
      if voucher_result.is_valid then
        let voucher_discount := voucherCalculate svc.vouchers ctx
        if voucher_discount > 0 then
          ([("Voucher (" ++ voucher_code.getD "" ++ ")", voucher_discount)],
           ["Voucher '" ++ voucher_code.getD "" ++ "' applied: ₹" ++ ratStr voucher_discount])
        else ([], [])
      else ([], ["Voucher validation failed: " ++ voucher_result.error_message])
    else ([], [])
  let bankStep : List (String × ℚ) × List String :=
    match payment_info with
    | some payment =>
        let bank_result := bankValidate svc.bank_offers ctx
        if bank_result.is_valid then
          let bank_discount := bankCalculate svc.bank_offers ctx
          if bank_discount > 0 then
            ([("Bank Offer (" ++ optStr payment.bank_name ++ ")", bank_discount)],
             ["Bank offer applied: ₹" ++ ratStr bank_discount])
          else ([], [])
        else if bank_result.errors ≠ [] then
          ([], ["Bank offer validation failed: " ++ bank_result.error_message])
        else ([], [])
    | none => ([], [])
  { original_total := original_total
    cart_after := cart2
    applied_discounts := applied2 ++ voucherStep.1 ++ bankStep.1
    bc_msgs := msgs2
    voucher_msgs := voucherStep.2
    bank_msgs := bankStep.2 }

/-- `DiscountService._calculate_stacked_discounts`. -/
def calcStacked (svc : DiscountService) (cart_items : List CartItem)
    (customer : CustomerProfile) (payment_info : Option PaymentInfo)
    (voucher_code : Option String) : DiscountedPrice :=
  let run := stackedCore svc cart_items customer payment_info voucher_code
  let total_discount := (run.applied_discounts.map Prod.snd).foldl (· + ·) 0
  let quantized := q2 (run.original_total - total_discount)
  let final_price := if quantized < 0 then 0 else quantized
  let messages := run.bc_msgs ++ run.voucher_msgs ++ run.bank_msgs
  { original_price := q2 run.original_total
    final_price := final_price
    applied_discounts := run.applied_discounts
    message :=
      if messages.isEmpty then "No discounts applied"
      else String.intercalate " | " messages }

/-- Candidate dictionary of `_calculate_best_discount` in insertion order:
brand, category, voucher (if a code was supplied and valid), bank (if
payment info was supplied and valid).  Each candidate runs on its own deep
copy of the caller's cart — in value semantics, on `cart_items` itself. -/
def bestCandidates (svc : DiscountService) (cart_items : List CartItem)
    (customer : CustomerProfile) (payment_info : Option PaymentInfo)
    (voucher_code : Option String) : List (String × ℚ) :=
  let brand_discount := (brandCalculate svc.brand_discounts cart_items).2
  let c1 := if brand_discount > 0 then [("Brand Discount", brand_discount)] else []
  let category_discount := (categoryCalculate svc.category_discounts cart_items).2
  let c2 := c1 ++
    (if category_discount > 0 then [("Category Discount", category_discount)] else [])
  let c3 := c2 ++
    (if strTruthy voucher_code then
      let ctx : DiscountContext :=
        { cart_items := cart_items, customer := customer, voucher_code := voucher_code }
      if (voucherValidate svc.vouchers ctx).is_valid then
        let voucher_discount := voucherCalculate svc.vouchers ctx
        if voucher_discount > 0 then
          [("Voucher (" ++ voucher_code.getD "" ++ ")", voucher_discount)]
        else []
      else []
    else [])
  c3 ++
    (match payment_info with
     | some payment =>
        let ctx : DiscountContext :=
          { cart_items := cart_items, customer := customer, payment_info := some payment }
        if (bankValidate svc.bank_offers ctx).is_valid then
          let bank_discount := bankCalculate svc.bank_offers ctx
          if bank_discount > 0 then
            [("Bank Offer (" ++ optStr payment.bank_name ++ ")", bank_discount)]
          else []
        else []
     | none => [])

/-- One comparison step of Python's `max` scan: keep the current maximum
unless the new amount is strictly larger. -/
def maxStep (acc : Option (String × ℚ)) (p : String × ℚ) : Option (String × ℚ) :=
  match acc with
  | none => some p
  | some c => if p.2 > c.2 then some p else acc

/-- Python's `max(candidates.items(), key=lambda x: x[1])` over the insertion
ordered dict: the scan keeps the current maximum unless a strictly larger
amount appears, so the first-seen maximum wins ties. -/
def selectBest (l : List (String × ℚ)) : Option (String × ℚ) :=
  l.foldl maxStep none

/-- `DiscountService._calculate_best_discount`. -/
def calcBest (svc : DiscountService) (cart_items : List CartItem)
    (customer : CustomerProfile) (payment_info : Option PaymentInfo)
    (voucher_code : Option String) : DiscountedPrice :=
  let original_total := baseTotal cart_items
  let cands := bestCandidates svc cart_items customer payment_info voucher_code
  let applied_discounts : List (String × ℚ) :=
    match selectBest cands with
    | some kv => [kv]
    | none => []
  let message :=
    match selectBest cands with
    | some kv => "Best discount applied: " ++ kv.1 ++ " - ₹" ++ ratStr kv.2
    | none => "No discounts applied"
  let total_discount := (applied_discounts.map Prod.snd).foldl (· + ·) 0
  let quantized := q2 (original_total - total_discount)
  let final_price := if quantized < 0 then 0 else quantized
  { original_price := q2 original_total
    final_price := final_price
    applied_discounts := applied_discounts
    message := message }

/-- `DiscountService.calculate_cart_discounts`. -/
def calculate_cart_discounts (svc : DiscountService) (cart_items : List CartItem)
    (customer : CustomerProfile) (payment_info : Option PaymentInfo := none)
    (voucher_code : Option String := none) : DiscountedPrice :=
  if svc.allow_discount_stacking then
    calcStacked svc cart_items customer payment_info voucher_code
  else
    calcBest svc cart_items customer payment_info voucher_code

/-- `DiscountService.validate_discount_code`: runs only the voucher
strategy's `validate` on a context built from the caller's cart (no copy)
and returns its validity flag. -/
def validate_discount_code (svc : DiscountService) (code : String)
    (cart_items : List CartItem) (customer : CustomerProfile) : Bool :=
  (voucherValidate svc.vouchers
    { cart_items := cart_items, customer := customer, voucher_code := some code }).is_valid

/-! ### Configured rule tables (`src/data/discount_config.py`) and fixtures
(`src/data/fake_data.py`) used by the concrete scenarios -/

def BRAND_DISCOUNTS : List (String × ℚ) :=
  [("PUMA", 40), ("NIKE", 30), ("ADIDAS", 35)]

def CATEGORY_DISCOUNTS : List (String × ℚ) :=
  [("T-shirts", 10), ("Shoes", 15), ("Jeans", 20)]

def VOUCHERS : List (String × VoucherConfig) :=
  [("SUPER69",
    { code := "SUPER69", discount_percentage := 69, min_cart_value := some 100,
      excluded_brand_tiers := [BrandTier.premium] }),
   ("NEWUSER20",
    { code := "NEWUSER20", discount_percentage := 20, min_cart_value := some 500,
      min_customer_tier := some CustomerTier.new }),
   ("TSHIRT15",
    { code := "TSHIRT15", discount_percentage := 15,
      allowed_categories := some ["T-shirts"] }),
   ("GOLD50",
    { code := "GOLD50", discount_percentage := 50, min_cart_value := some 1000,
      excluded_brands := ["PUMA", "NIKE"], min_customer_tier := some CustomerTier.gold })]

def BANK_OFFERS : List (String × BankOfferConfig) :=
  [("ICICI",
    { bank_name := "ICICI", discount_percentage := 10,
      min_transaction_value := some 100 }),
   ("HDFC",
    { bank_name := "HDFC", discount_percentage := 15, card_type := some "CREDIT",
      min_transaction_value := some 500 }),
   ("SBI", { bank_name := "SBI", discount_percentage := 5 })]

/-- The service wired with the repository's configured strategies,
stacking mode (the constructor default). -/
def stackingService : DiscountService :=
  { brand_discounts := BRAND_DISCOUNTS, category_discounts := CATEGORY_DISCOUNTS,
    vouchers := VOUCHERS, bank_offers := BANK_OFFERS, allow_discount_stacking := true }

/-- The same service with `allow_discount_stacking=False` (best-discount mode). -/
def bestDiscountService : DiscountService :=
  { brand_discounts := BRAND_DISCOUNTS, category_discounts := CATEGORY_DISCOUNTS,
    vouchers := VOUCHERS, bank_offers := BANK_OFFERS, allow_discount_stacking := false }

def PUMA_TSHIRT : Product :=
  { id := "P001", brand := "PUMA", brand_tier := BrandTier.regular,
    category := "T-shirts", base_price := 1000, current_price := 1000 }

def NIKE_SHOES : Product :=
  { id := "P002", brand := "NIKE", brand_tier := BrandTier.premium,
    category := "Shoes", base_price := 5000, current_price := 5000 }

/-- `get_multiple_discount_scenario()`: one PUMA T-shirt, quantity 1. -/
def scenarioCart : List CartItem :=
  [{ product := PUMA_TSHIRT, quantity := 1, size := "L" }]

def NEW_CUSTOMER : CustomerProfile :=
  { id := "C001", tier := CustomerTier.new, total_purchases := 0 }

def GOLD_CUSTOMER : CustomerProfile :=
  { id := "C003", tier := CustomerTier.gold, total_purchases := 25000 }

def ICICI_CARD_PAYMENT : PaymentInfo :=
  { method := "CARD", bank_name := some "ICICI", card_type := some "DEBIT" }

def HDFC_DEBIT_PAYMENT : PaymentInfo :=
  { method := "CARD", bank_name := some "HDFC", card_type := some "DEBIT" }

/-! ### Aliasing model of the cart heap (frame properties)

Python cart items hold references to mutable `Product` objects, and
`current_price` is the only field the pipeline ever writes.  The heap is
modelled as a store of `current_price` cells: a product carries the index of
its cell, `copy.deepcopy` allocates fresh cells at the end of the store, and
the brand/category strategies write through the cell index.  (`deepcopy`'s
memo-sharing between cart items that alias one product object is not
modelled; it has no effect on which pre-existing cells are written.) -/

abbrev Store := List ℚ

structure RProduct where
  id : String
  brand : String
  brand_tier : BrandTier
  category : String
  base_price : ℚ
  cell : Nat
deriving DecidableEq, Repr

structure RCartItem where
  product : RProduct
  quantity : Nat
  size : String
deriving DecidableEq, Repr

def readCell (s : Store) (c : Nat) : ℚ := s.getD c 0

/-- View a heap cart as a value cart by reading each current-price cell. -/
def materialize (s : Store) (items : List RCartItem) : List CartItem :=
  items.map (fun it =>
    { product :=
        { id := it.product.id, brand := it.product.brand,
          brand_tier := it.product.brand_tier, category := it.product.category,
          base_price := it.product.base_price,
          current_price := readCell s it.product.cell },
      quantity := it.quantity, size := it.size })

/-- One item of `copy.deepcopy(cart_items)`: the item is re-pointed at a
fresh cell that holds the current value of its old cell. -/
def deepcopyStep (acc : List RCartItem × Store) (it : RCartItem) :
    List RCartItem × Store :=
  (acc.1 ++ [{ it with product := { it.product with cell := acc.2.length } }],
    acc.2 ++ [readCell acc.2 it.product.cell])

/-- `copy.deepcopy(cart_items)`. -/
def deepcopyItems (items : List RCartItem) (s : Store) : List RCartItem × Store :=
  items.foldl deepcopyStep ([], s)

/-- One loop iteration of `BrandDiscountStrategy.calculate` against the
store: writes `base_price - item_discount` through the item's cell. -/
def rBrandStep (brand_discounts : List (String × ℚ)) (acc : ℚ × Store)
    (it : RCartItem) : ℚ × Store :=
  match brand_discounts.lookup it.product.brand with
  | some pct =>
      let d := q2 (it.product.base_price * pct / 100)
      (acc.1 + d * it.quantity,
        acc.2.set it.product.cell (it.product.base_price - d))
  | none => acc

/-- `BrandDiscountStrategy.calculate` against the store. -/
def rBrandCalculate (brand_discounts : List (String × ℚ)) (items : List RCartItem)
    (s : Store) : ℚ × Store :=
  let out := items.foldl (rBrandStep brand_discounts) (0, s)
  (q2 out.1, out.2)

/-- One loop iteration of `CategoryDiscountStrategy.calculate` against the
store: reads the current cell value and decrements it. -/
def rCategoryStep (category_discounts : List (String × ℚ)) (acc : ℚ × Store)
    (it : RCartItem) : ℚ × Store :=
  match category_discounts.lookup it.product.category with
  | some pct =>
      let cur := readCell acc.2 it.product.cell
      let d := q2 (cur * pct / 100)
      (acc.1 + d * it.quantity, acc.2.set it.product.cell (cur - d))
  | none => acc

/-- `CategoryDiscountStrategy.calculate` against the store. -/
def rCategoryCalculate (category_discounts : List (String × ℚ)) (items : List RCartItem)
    (s : Store) : ℚ × Store :=
  let out := items.foldl (rCategoryStep category_discounts) (0, s)
  (q2 out.1, out.2)

/-- Store effect of `_calculate_stacked_discounts`: one deep copy, then the
brand and category strategies write the copied cells; the voucher and bank
steps only read the store through `item.get_subtotal()`. -/
def rStackedStore (svc : DiscountService) (items : List RCartItem) (s : Store) : Store :=
  let copied := deepcopyItems items s
  let step1 := rBrandCalculate svc.brand_discounts copied.1 copied.2
  let step2 := rCategoryCalculate svc.category_discounts copied.1 step1.2
  step2.2

/-- Store effect of `_calculate_best_discount`: a fresh deep copy per
candidate (the voucher and bank copies are taken only when a code or payment
info was supplied); only the brand and category strategies write, each on its
own copy. -/
def rBestStore (svc : DiscountService) (items : List RCartItem)
    (payment_info : Option PaymentInfo) (voucher_code : Option String)
    (s : Store) : Store :=
  let copyB := deepcopyItems items s
  let s1 := (rBrandCalculate svc.brand_discounts copyB.1 copyB.2).2
  let copyC := deepcopyItems items s1
  let s2 := (rCategoryCalculate svc.category_discounts copyC.1 copyC.2).2
  let s3 := if strTruthy voucher_code then (deepcopyItems items s2).2 else s2
  match payment_info with
  | some _ => (deepcopyItems items s3).2
  | none => s3

/-- Store effect of `calculate_cart_discounts` in either mode. -/
def rCalculateStore (svc : DiscountService) (items : List RCartItem)
    (payment_info : Option PaymentInfo) (voucher_code : Option String)
    (s : Store) : Store :=
  if svc.allow_discount_stacking then rStackedStore svc items s
  else rBestStore svc items payment_info voucher_code s

/-- `DiscountService.validate_discount_code` against the store: the context
is built from the caller's cart itself (no copy), only the voucher
strategy's `validate` runs, and every check reads the store without writing;
the pair carries the verdict and the store after the call. -/
def rValidateDiscountCode (svc : DiscountService) (code : String)
    (items : List RCartItem) (customer : CustomerProfile) (s : Store) :
    Bool × Store :=
  ((voucherValidate svc.vouchers
      { cart_items := materialize s items, customer := customer,
        voucher_code := some code }).is_valid, s)

/-! ### Substring test (for "the reason mentions the required card type") -/

def startsWithChars : List Char → List Char → Bool
  | [], _ => true
  | _ :: _, [] => false
  | a :: as, b :: bs => a == b && startsWithChars as bs

/-- `pat` occurs as a contiguous substring. -/
def occursIn (pat : List Char) : List Char → Bool
  | [] => startsWithChars pat []
  | b :: bs => startsWithChars pat (b :: bs) || occursIn pat bs

/-- Substring test on strings. -/
def mentions (s pat : String) : Bool := occursIn pat.toList s.toList

/-! ### Additional fixtures for edge-case inputs -/

/-- A cart item with a negative list price — the dataclasses perform no
validation, so such carts reach the pipeline unchanged. -/
def negPricedItem : CartItem :=
  { product :=
      { id := "N1", brand := "GUCCI", brand_tier := BrandTier.premium,
        category := "Jackets", base_price := -100, current_price := -100 },
    quantity := 1, size := "M" }

def negCart : List CartItem := [negPricedItem]

/-- Best-discount service whose brand and category tables produce tied
candidate amounts on `scenarioCart` (10% of 1000 each). -/
def tieService : DiscountService :=
  { brand_discounts := [("PUMA", 10)], category_discounts := [("T-shirts", 10)],
    vouchers := [], bank_offers := [], allow_discount_stacking := false }

/-- A bank-offer table whose only offer has `min_transaction_value = 0`,
which Python's truthiness test treats like an absent minimum. -/
def zeroMinOffers : List (String × BankOfferConfig) :=
  [("ZB", { bank_name := "ZB", discount_percentage := 10,
            min_transaction_value := some 0 })]

def negCurrentItem : CartItem :=
  { product :=
      { id := "N2", brand := "B", brand_tier := BrandTier.regular,
        category := "C", base_price := 10, current_price := -10 },
    quantity := 1, size := "M" }

def zeroMinCtx : DiscountContext :=
  { cart_items := [negCurrentItem], customer := NEW_CUSTOMER,
    payment_info := some { method := "CARD", bank_name := some "ZB" } }

/-- Brand table and cart for the negative-price probe of the
`current_price ≤ base_price` invariant. -/
def negBrandTable : List (String × ℚ) := [("NEG", 40)]

def negBaseItem : CartItem :=
  { product :=
      { id := "N3", brand := "NEG", brand_tier := BrandTier.regular,
        category := "X", base_price := -100, current_price := -100 },
    quantity := 1, size := "M" }

/-- Premium-tier cart for the voucher-exclusion scenarios. -/
def nikeCart : List CartItem := [{ product := NIKE_SHOES, quantity := 1, size := "10" }]

/-- Heap-model fixture: one PUMA T-shirt whose current price lives in cell 0. -/
def heapItem : RCartItem :=
  { product :=
      { id := "P001", brand := "PUMA", brand_tier := BrandTier.regular,
        category := "T-shirts", base_price := 1000, cell := 0 },
    quantity := 1, size := "L" }

def heapStore : Store := [1000]

/-- The five voucher checks of §4.3, each computed independently of the
others; used to state that `validate` collects every failing reason without
short-circuiting once the code is known. -/
def voucherCheckErrors (voucher : VoucherConfig) (ctx : DiscountContext) : List String :=
  (if decTruthy voucher.min_cart_value = true ∧
      cartTotal ctx.cart_items < voucher.min_cart_value.getD 0 then
    ["Minimum cart value of ₹" ++ ratStr (voucher.min_cart_value.getD 0)
      ++ " not met (current: ₹" ++ ratStr (cartTotal ctx.cart_items) ++ ")"]
   else []) ++
  (if voucher.excluded_brands ≠ [] ∧
      ((ctx.cart_items.map (fun it => it.product.brand)).filter
        (fun b => voucher.excluded_brands.contains b)).eraseDups ≠ [] then
    ["Voucher not valid for brands: " ++ String.intercalate ", "
      ((ctx.cart_items.map (fun it => it.product.brand)).filter
        (fun b => voucher.excluded_brands.contains b)).eraseDups]
   else []) ++
  (if optListTruthy voucher.allowed_categories = true ∧
      ((ctx.cart_items.map (fun it => it.product.category)).filter
        (fun c => !((voucher.allowed_categories.getD []).contains c))).eraseDups ≠ [] then
    ["Voucher only valid for categories: " ++ String.intercalate ", "
      (voucher.allowed_categories.getD [])]
   else []) ++
  (if voucher.excluded_brand_tiers ≠ [] ∧
      ((ctx.cart_items.map (fun it => it.product.brand_tier)).filter
        (fun t => voucher.excluded_brand_tiers.contains t)).eraseDups ≠ [] then
    ["Voucher not valid for " ++ String.intercalate ", "
      ((((ctx.cart_items.map (fun it => it.product.brand_tier)).filter
        (fun t => voucher.excluded_brand_tiers.contains t)).eraseDups).map
          BrandTier.value) ++ " brand products"]
   else []) ++
  (match voucher.min_customer_tier with
   | some required =>
      if tierOrderIndex ctx.customer.tier < tierOrderIndex required then
        ["Voucher requires " ++ required.value ++ " membership (current: "
          ++ ctx.customer.tier.value ++ ")"]
      else []
   | none => [])

-- DEFS-CONTINUE --

-- THEOREMS-BEGIN --

theorem ratFloor_eq_floor (q : ℚ) : Rat.floor q = ⌊q⌋ := by
  rw [Rat.floor_def', Rat.floor_def]

theorem roundHalfEven_def (x : ℚ) :
    roundHalfEven x =
      if x - ⌊x⌋ < 1/2 then ⌊x⌋
      else if x - ⌊x⌋ > 1/2 then ⌊x⌋ + 1
      else if ⌊x⌋ % 2 = 0 then ⌊x⌋ else ⌊x⌋ + 1 := by
  unfold roundHalfEven
  rw [ratFloor_eq_floor]

theorem roundHalfEven_le (x : ℚ) : (roundHalfEven x : ℚ) ≤ x + 1/2 := by
  rw [roundHalfEven_def]
  have h1 := Int.floor_le x
  have h2 := Int.lt_floor_add_one x
  split_ifs <;> push_cast <;> linarith

theorem le_roundHalfEven (x : ℚ) : x - 1/2 ≤ (roundHalfEven x : ℚ) := by
  rw [roundHalfEven_def]
  have h1 := Int.floor_le x
  have h2 := Int.lt_floor_add_one x
  split_ifs <;> push_cast <;> linarith

theorem roundHalfEven_nonneg {x : ℚ} (hx : 0 ≤ x) : 0 ≤ roundHalfEven x := by
  have hf : (0 : ℤ) ≤ ⌊x⌋ := Int.le_floor.mpr (by exact_mod_cast hx)
  rw [roundHalfEven_def]
  split_ifs <;> omega

theorem roundHalfEven_floor_le (x : ℚ) : ⌊x⌋ ≤ roundHalfEven x := by
  rw [roundHalfEven_def]
  split_ifs <;> omega

theorem roundHalfEven_le_floor_add_one (x : ℚ) : roundHalfEven x ≤ ⌊x⌋ + 1 := by
  rw [roundHalfEven_def]
  split_ifs <;> omega

theorem roundHalfEven_mono {x y : ℚ} (h : x ≤ y) :
    roundHalfEven x ≤ roundHalfEven y := by
  rcases lt_or_eq_of_le (Int.floor_le_floor h : ⌊x⌋ ≤ ⌊y⌋) with hlt | heq
  · calc roundHalfEven x ≤ ⌊x⌋ + 1 := roundHalfEven_le_floor_add_one x
      _ ≤ ⌊y⌋ := by omega
      _ ≤ roundHalfEven y := roundHalfEven_floor_le y
  · have hr : x - (⌊x⌋ : ℚ) ≤ y - (⌊y⌋ : ℚ) := by
      rw [← heq]; linarith
    rw [roundHalfEven_def, roundHalfEven_def, ← heq]
    split_ifs <;> first | omega | linarith

theorem roundHalfEven_eq_zero {x : ℚ} (h1 : -(1/2) ≤ x) (h2 : x ≤ 0) :
    roundHalfEven x = 0 := by
  have hle := Int.floor_le x
  have hgt := Int.lt_floor_add_one x
  have hub : ⌊x⌋ ≤ 0 := by
    have h := Int.floor_le_floor h2
    simpa using h
  have hlb : (-1 : ℤ) ≤ ⌊x⌋ := Int.le_floor.mpr (by push_cast; linarith)
  have hcase : ⌊x⌋ = -1 ∨ ⌊x⌋ = 0 := by omega
  rw [roundHalfEven_def]
  rcases hcase with h | h <;>
    rw [h] at hle hgt ⊢ <;>
    split_ifs <;>
    push_cast at * <;>
    first | rfl | omega | linarith

theorem q2_mono {x y : ℚ} (h : x ≤ y) : q2 x ≤ q2 y := by
  unfold q2
  have := roundHalfEven_mono (show 100 * x ≤ 100 * y by linarith)
  have : ((roundHalfEven (100 * x) : ℤ) : ℚ) ≤ (roundHalfEven (100 * y) : ℚ) := by
    exact_mod_cast this
  linarith

theorem q2_nonneg {x : ℚ} (hx : 0 ≤ x) : 0 ≤ q2 x := by
  unfold q2
  have h := roundHalfEven_nonneg (show (0:ℚ) ≤ 100 * x by linarith)
  have : (0 : ℚ) ≤ (roundHalfEven (100 * x) : ℚ) := by exact_mod_cast h
  linarith

theorem q2_le (x : ℚ) : q2 x ≤ x + 1/200 := by
  unfold q2
  have := roundHalfEven_le (100 * x)
  linarith

theorem le_q2 (x : ℚ) : x - 1/200 ≤ q2 x := by
  unfold q2
  have := le_roundHalfEven (100 * x)
  linarith

theorem q2_eq_zero {x : ℚ} (h1 : -(1/200) ≤ x) (h2 : x ≤ 0) : q2 x = 0 := by
  unfold q2
  rw [roundHalfEven_eq_zero (by linarith) (by linarith)]
  norm_num



/-! ### Basic helper lemmas -/

theorem lookup_mem {α β : Type} [BEq α] [LawfulBEq α] {l : List (α × β)} {k : α}
    {v : β} (h : l.lookup k = some v) : (k, v) ∈ l := by
  induction l with
  | nil => simp [List.lookup] at h
  | cons p t ih =>
      rw [List.lookup] at h
      rcases hp : k == p.1 with _ | _
      · rw [hp] at h
        simp only [List.mem_cons]
        exact Or.inr (ih h)
      · rw [hp] at h
        simp only [Option.some.injEq] at h
        have : k = p.1 := by simpa using hp
        simp [← h, this]

theorem foldl_add_nonneg (l : List ℚ) (h : ∀ x ∈ l, 0 ≤ x) :
    ∀ a, 0 ≤ a → 0 ≤ l.foldl (· + ·) a := by
  induction l with
  | nil => intro a ha; simpa using ha
  | cons x t ih =>
      intro a ha
      have hx := h x (by simp)
      exact ih (fun y hy => h y (by simp [hy])) (a + x) (by linarith)

theorem stackedCore_applied_pos (svc : DiscountService) (cart : List CartItem)
    (customer : CustomerProfile) (payment : Option PaymentInfo) (vc : Option String) :
    ∀ p ∈ (stackedCore svc cart customer payment vc).applied_discounts, 0 < p.2 := by
  intro p hp
  simp only [stackedCore, List.mem_append] at hp
  rcases hp with ((hp | hp) | hp) | hp <;> (repeat' split at hp) <;> simp_all

theorem bestCandidates_pos (svc : DiscountService) (cart : List CartItem)
    (customer : CustomerProfile) (payment : Option PaymentInfo) (vc : Option String) :
    ∀ p ∈ bestCandidates svc cart customer payment vc, 0 < p.2 := by
  intro p hp
  simp only [bestCandidates, List.mem_append] at hp
  rcases hp with ((hp | hp) | hp) | hp <;> (repeat' split at hp) <;> simp_all

theorem selectBest_foldl_mem (l : List (String × ℚ)) :
    ∀ (acc : Option (String × ℚ)) (kv : String × ℚ),
      l.foldl maxStep acc = some kv → acc = some kv ∨ kv ∈ l := by
  induction l with
  | nil => intro acc kv h; exact Or.inl h
  | cons p t ih =>
      intro acc kv h
      rw [List.foldl_cons] at h
      rcases ih _ kv h with hstep | hmem
      · rcases acc with _ | c
        · simp only [maxStep, Option.some.injEq] at hstep
          exact Or.inr (by simp [hstep])
        · simp only [maxStep] at hstep
          split at hstep
          · simp only [Option.some.injEq] at hstep
            exact Or.inr (by simp [hstep])
          · exact Or.inl hstep
      · exact Or.inr (List.mem_cons_of_mem _ hmem)

theorem selectBest_mem {l : List (String × ℚ)} {kv : String × ℚ}
    (h : selectBest l = some kv) : kv ∈ l := by
  rcases selectBest_foldl_mem l none kv h with hacc | hmem
  · cases hacc
  · exact hmem

/-- Claim C2 (amended).  In both modes the final price is clamped at 0 and,
whenever the cart's original total (Σ base_price × quantity) is
non-negative — in particular for every cart with non-negative list
prices — the final price never exceeds the original price.  (For carts
with a negative original total the clamp can raise the final price above
the original; see the counterexample.) -/
theorem claim2_price_bounds (svc : DiscountService) (cart : List CartItem)
    (customer : CustomerProfile) (payment : Option PaymentInfo) (vc : Option String) :
    0 ≤ (calculate_cart_discounts svc cart customer payment vc).final_price ∧
    (0 ≤ baseTotal cart →
      (calculate_cart_discounts svc cart customer payment vc).final_price
        ≤ (calculate_cart_discounts svc cart customer payment vc).original_price) := by
  unfold calculate_cart_discounts
  split_ifs with hmode
  · have hpos := stackedCore_applied_pos svc cart customer payment vc
    have htot : 0 ≤ ((stackedCore svc cart customer payment vc).applied_discounts.map
        Prod.snd).foldl (· + ·) 0 := by
      refine foldl_add_nonneg _ ?_ 0 le_rfl
      intro x hx
      simp only [List.mem_map] at hx
      obtain ⟨q, hq, rfl⟩ := hx
      exact le_of_lt (hpos q hq)
    have horig : (stackedCore svc cart customer payment vc).original_total
        = baseTotal cart := rfl
    simp only [calcStacked]
    refine ⟨?_, ?_⟩
    · split_ifs with hq
      · exact le_rfl
      · exact not_lt.mp hq
    · intro hO
      split_ifs with hq
      · rw [horig]
        exact q2_nonneg hO
      · exact q2_mono (by linarith)
  · have hpos := bestCandidates_pos svc cart customer payment vc
    rcases hsel : selectBest (bestCandidates svc cart customer payment vc) with _ | kv
    · simp only [calcBest, hsel, List.map_nil, List.foldl_nil, sub_zero]
      refine ⟨?_, ?_⟩
      · split_ifs with hq
        · exact le_rfl
        · exact not_lt.mp hq
      · intro hO
        split_ifs with hq
        · exact q2_nonneg hO
        · exact le_rfl
    · have hk : 0 < kv.2 := hpos kv (selectBest_mem hsel)
      simp only [calcBest, hsel, List.map_cons, List.map_nil, List.foldl_cons,
        List.foldl_nil, zero_add]
      refine ⟨?_, ?_⟩
      · split_ifs with hq
        · exact le_rfl
        · exact not_lt.mp hq
      · intro hO
        split_ifs with hq
        · exact q2_nonneg hO
        · exact q2_mono (by linarith)

/-- Witness for the amended claim C2 at the literal scenario. -/
theorem claim2_price_bounds_witness :
    0 ≤ baseTotal scenarioCart ∧
    0 ≤ (calculate_cart_discounts stackingService scenarioCart NEW_CUSTOMER none none).final_price ∧
    (calculate_cart_discounts stackingService scenarioCart NEW_CUSTOMER none none).final_price
      ≤ (calculate_cart_discounts stackingService scenarioCart NEW_CUSTOMER none none).original_price := by
  have h := claim2_price_bounds stackingService scenarioCart NEW_CUSTOMER none none
  exact ⟨by decide, h.1, h.2 (by decide)⟩

/-! ### Frame lemmas for the heap model -/

theorem readCell_set_ne (s : Store) (c c' : Nat) (v : ℚ) (h : c ≠ c') :
    readCell (s.set c v) c' = readCell s c' := by
  unfold readCell
  rw [List.getD_eq_getElem?_getD, List.getD_eq_getElem?_getD, List.getElem?_set_ne h]

theorem readCell_append_left (s t : Store) (c : Nat) (h : c < s.length) :
    readCell (s ++ t) c = readCell s c := by
  unfold readCell
  rw [List.getD_eq_getElem?_getD, List.getD_eq_getElem?_getD,
    List.getElem?_append_left h]

theorem deepcopy_foldl_store (items : List RCartItem) :
    ∀ acc : List RCartItem × Store,
      ∃ t, (items.foldl deepcopyStep acc).2 = acc.2 ++ t := by
  induction items with
  | nil => intro acc; exact ⟨[], by simp⟩
  | cons it rest ih =>
      intro acc
      rw [List.foldl_cons]
      obtain ⟨t, ht⟩ := ih (deepcopyStep acc it)
      refine ⟨readCell acc.2 it.product.cell :: t, ?_⟩
      rw [ht]
      simp [deepcopyStep]

theorem deepcopy_foldl_cells (items : List RCartItem) :
    ∀ acc : List RCartItem × Store, ∀ it2 ∈ (items.foldl deepcopyStep acc).1,
      it2 ∈ acc.1 ∨ acc.2.length ≤ it2.product.cell := by
  induction items with
  | nil => intro acc it2 h; exact Or.inl h
  | cons it rest ih =>
      intro acc it2 h
      rw [List.foldl_cons] at h
      rcases ih (deepcopyStep acc it) it2 h with hin | hge
      · simp only [deepcopyStep, List.mem_append, List.mem_singleton] at hin
        rcases hin with hin | rfl
        · exact Or.inl hin
        · exact Or.inr le_rfl
      · simp only [deepcopyStep, List.length_append, List.length_singleton] at hge
        exact Or.inr (by omega)

theorem rBrand_foldl_frame (bd : List (String × ℚ)) (items : List RCartItem) (c : Nat)
    (hne : ∀ it ∈ items, it.product.cell ≠ c) :
    ∀ acc : ℚ × Store,
      readCell (items.foldl (rBrandStep bd) acc).2 c = readCell acc.2 c := by
  induction items with
  | nil => intro acc; rfl
  | cons it rest ih =>
      intro acc
      rw [List.foldl_cons]
      rw [ih (fun x hx => hne x (List.mem_cons_of_mem _ hx))]
      unfold rBrandStep
      split
      · exact readCell_set_ne _ _ _ _ (hne it (by simp))
      · rfl

theorem rCategory_foldl_frame (cd : List (String × ℚ)) (items : List RCartItem)
    (c : Nat) (hne : ∀ it ∈ items, it.product.cell ≠ c) :
    ∀ acc : ℚ × Store,
      readCell (items.foldl (rCategoryStep cd) acc).2 c = readCell acc.2 c := by
  induction items with
  | nil => intro acc; rfl
  | cons it rest ih =>
      intro acc
      rw [List.foldl_cons]
      rw [ih (fun x hx => hne x (List.mem_cons_of_mem _ hx))]
      unfold rCategoryStep
      split
      · exact readCell_set_ne _ _ _ _ (hne it (by simp))
      · rfl

theorem rBrand_foldl_length (bd : List (String × ℚ)) (items : List RCartItem) :
    ∀ acc : ℚ × Store,
      (items.foldl (rBrandStep bd) acc).2.length = acc.2.length := by
  induction items with
  | nil => intro acc; rfl
  | cons it rest ih =>
      intro acc
      rw [List.foldl_cons, ih]
      unfold rBrandStep
      split <;> simp

theorem rCategory_foldl_length (cd : List (String × ℚ)) (items : List RCartItem) :
    ∀ acc : ℚ × Store,
      (items.foldl (rCategoryStep cd) acc).2.length = acc.2.length := by
  induction items with
  | nil => intro acc; rfl
  | cons it rest ih =>
      intro acc
      rw [List.foldl_cons, ih]
      unfold rCategoryStep
      split <;> simp

/-- Frame of one copy-then-write round: deep-copy the caller's items into a
store `s`, then let the brand and category strategies (or either alone)
write the copied cells — every cell below the original store length keeps
its value. -/
theorem copy_round_frame (bd cd : List (String × ℚ)) (items : List RCartItem)
    (s : Store) (c : Nat) (hc : c < s.length) :
    readCell (rCategoryCalculate cd (deepcopyItems items s).1
        (rBrandCalculate bd (deepcopyItems items s).1 (deepcopyItems items s).2).2).2 c
      = readCell s c ∧
    readCell (rBrandCalculate bd (deepcopyItems items s).1 (deepcopyItems items s).2).2 c
      = readCell s c ∧
    readCell (rCategoryCalculate cd (deepcopyItems items s).1 (deepcopyItems items s).2).2 c
      = readCell s c ∧
    readCell (deepcopyItems items s).2 c = readCell s c := by
  have hcells : ∀ it2 ∈ (deepcopyItems items s).1, it2.product.cell ≠ c := by
    intro it2 h2
    rcases deepcopy_foldl_cells items ([], s) it2 h2 with hin | hge
    · cases hin
    · have h3 : s.length ≤ it2.product.cell := hge
      omega
  obtain ⟨t, ht⟩ := deepcopy_foldl_store items ([], s)
  have hcopy : readCell (deepcopyItems items s).2 c = readCell s c := by
    show readCell (items.foldl deepcopyStep ([], s)).2 c = readCell s c
    rw [ht]
    exact readCell_append_left s t c hc
  have hbrand : readCell (rBrandCalculate bd (deepcopyItems items s).1
      (deepcopyItems items s).2).2 c = readCell s c := by
    show readCell ((deepcopyItems items s).1.foldl (rBrandStep bd)
      (0, (deepcopyItems items s).2)).2 c = readCell s c
    rw [rBrand_foldl_frame bd _ c hcells]
    exact hcopy
  have hcat1 : readCell (rCategoryCalculate cd (deepcopyItems items s).1
      (deepcopyItems items s).2).2 c = readCell s c := by
    show readCell ((deepcopyItems items s).1.foldl (rCategoryStep cd)
      (0, (deepcopyItems items s).2)).2 c = readCell s c
    rw [rCategory_foldl_frame cd _ c hcells]
    exact hcopy
  refine ⟨?_, hbrand, hcat1, hcopy⟩
  show readCell ((deepcopyItems items s).1.foldl (rCategoryStep cd)
    (0, (rBrandCalculate bd (deepcopyItems items s).1 (deepcopyItems items s).2).2)).2 c
    = readCell s c
  rw [rCategory_foldl_frame cd _ c hcells]
  exact hbrand

theorem deepcopy_length_ge (items : List RCartItem) (s : Store) :
    s.length ≤ (deepcopyItems items s).2.length := by
  obtain ⟨t, ht⟩ := deepcopy_foldl_store items ([], s)
  show s.length ≤ (items.foldl deepcopyStep ([], s)).2.length
  rw [ht]
  simp

/-! ### Claim theorems -/

/-- Claim C8.  In both modes `calculate_cart_discounts` writes only through
the fresh cells its deep copies allocate: after the call every current-price
cell of the caller's store keeps its value (`c < s.length` covers every
cell of a well-formed caller cart); the customer profile and payment info
are immutable values the pipeline never rebuilds. -/
theorem claim8_caller_state_unchanged (svc : DiscountService) (items : List RCartItem)
    (payment : Option PaymentInfo) (vc : Option String) (s : Store) (c : Nat)
    (hc : c < s.length) :
    readCell (rCalculateStore svc items payment vc s) c = readCell s c := by
  unfold rCalculateStore
  split_ifs with hmode
  · unfold rStackedStore
    exact (copy_round_frame svc.brand_discounts svc.category_discounts items s c hc).1
  · unfold rBestStore
    simp only []
    have e1 : readCell (rBrandCalculate svc.brand_discounts
        (deepcopyItems items s).1 (deepcopyItems items s).2).2 c = readCell s c :=
      (copy_round_frame svc.brand_discounts svc.category_discounts items s c hc).2.1
    have hl1 : s.length ≤ (rBrandCalculate svc.brand_discounts
        (deepcopyItems items s).1 (deepcopyItems items s).2).2.length := by
      show s.length ≤ ((deepcopyItems items s).1.foldl
        (rBrandStep svc.brand_discounts) (0, (deepcopyItems items s).2)).2.length
      rw [rBrand_foldl_length]
      exact deepcopy_length_ge items s
    set s1 := (rBrandCalculate svc.brand_discounts
      (deepcopyItems items s).1 (deepcopyItems items s).2).2 with hs1
    have hc1 : c < s1.length := lt_of_lt_of_le hc hl1
    have e2 : readCell (rCategoryCalculate svc.category_discounts
        (deepcopyItems items s1).1 (deepcopyItems items s1).2).2 c = readCell s1 c :=
      (copy_round_frame svc.brand_discounts svc.category_discounts items s1 c hc1).2.2.1
    have hl2 : s1.length ≤ (rCategoryCalculate svc.category_discounts
        (deepcopyItems items s1).1 (deepcopyItems items s1).2).2.length := by
      show s1.length ≤ ((deepcopyItems items s1).1.foldl
        (rCategoryStep svc.category_discounts) (0, (deepcopyItems items s1).2)).2.length
      rw [rCategory_foldl_length]
      exact deepcopy_length_ge items s1
    set s2 := (rCategoryCalculate svc.category_discounts
      (deepcopyItems items s1).1 (deepcopyItems items s1).2).2 with hs2
    have hc2 : c < s2.length := lt_of_lt_of_le hc1 hl2
    have e12 : readCell s2 c = readCell s c := e2.trans e1
    by_cases hvtr : strTruthy vc = true
    · rw [if_pos hvtr]
      have hc3 : c < ((deepcopyItems items s2).2).length :=
        lt_of_lt_of_le hc2 (deepcopy_length_ge items s2)
      have e3 : readCell (deepcopyItems items s2).2 c = readCell s2 c :=
        (copy_round_frame svc.brand_discounts svc.category_discounts items s2 c hc2).2.2.2
      rcases payment with _ | p
      · exact e3.trans e12
      · have e4 : readCell (deepcopyItems items (deepcopyItems items s2).2).2 c
            = readCell (deepcopyItems items s2).2 c :=
          (copy_round_frame svc.brand_discounts svc.category_discounts items
            ((deepcopyItems items s2).2) c hc3).2.2.2
        exact (e4.trans e3).trans e12
    · rw [if_neg hvtr]
      rcases payment with _ | p
      · exact e12
      · have e3 : readCell (deepcopyItems items s2).2 c = readCell s2 c :=
          (copy_round_frame svc.brand_discounts svc.category_discounts items s2 c hc2).2.2.2
        exact e3.trans e12

/-- Witness for claim C8: one PUMA item whose price cell 0 holds 1000 keeps
that value through a full stacking-mode run. -/
theorem claim8_caller_state_unchanged_witness :
    0 < heapStore.length ∧
    readCell (rCalculateStore stackingService [heapItem] none none heapStore) 0
      = readCell heapStore 0 :=
  ⟨by decide, claim8_caller_state_unchanged stackingService [heapItem] none none
      heapStore 0 (by decide)⟩

theorem materialize_congr {s s' : Store} {items : List RCartItem}
    (h : ∀ it ∈ items, readCell s it.product.cell = readCell s' it.product.cell) :
    materialize s items = materialize s' items := by
  unfold materialize
  exact List.map_congr_left (fun it hit => by rw [h it hit])

/-- Claim C9.  `validate_discount_code` builds its context from the caller's
cart itself and only the voucher strategy's `validate` runs, which never
writes the store: the store after the call is the input store, a second call
on the post-call state returns the identical verdict, and the verdict is a
function of the cart's readable state alone (stores agreeing on every cell
the cart references give the same verdict). -/
theorem claim9_validate_idempotent :
    (∀ (svc : DiscountService) (code : String) (items : List RCartItem)
        (customer : CustomerProfile) (s : Store),
      (rValidateDiscountCode svc code items customer s).2 = s ∧
      rValidateDiscountCode svc code items customer
          (rValidateDiscountCode svc code items customer s).2
        = rValidateDiscountCode svc code items customer s ∧
      validate_discount_code svc code (materialize s items) customer
        = (rValidateDiscountCode svc code items customer s).1) ∧
    (∀ (svc : DiscountService) (code : String) (items : List RCartItem)
        (customer : CustomerProfile) (s s' : Store),
      (∀ it ∈ items, readCell s it.product.cell = readCell s' it.product.cell) →
      (rValidateDiscountCode svc code items customer s).1
        = (rValidateDiscountCode svc code items customer s').1) := by
  refine ⟨fun svc code items customer s => ⟨rfl, rfl, rfl⟩, ?_⟩
  intro svc code items customer s s' h
  simp only [rValidateDiscountCode]
  rw [materialize_congr h]

/-- Witness for claim C9: two stores agreeing on the single referenced cell
give the same verdict. -/
theorem claim9_validate_idempotent_witness :
    (rValidateDiscountCode stackingService "SUPER69" [heapItem] NEW_CUSTOMER
        heapStore).1
      = (rValidateDiscountCode stackingService "SUPER69" [heapItem] NEW_CUSTOMER
          [1000, 5]).1 :=
  claim9_validate_idempotent.2 stackingService "SUPER69" [heapItem] NEW_CUSTOMER
    heapStore [1000, 5] (by decide)



theorem bankValidate_voucher_irrelevant (bo : List (String × BankOfferConfig))
    (items : List CartItem) (customer : CustomerProfile)
    (payment : Option PaymentInfo) (v : Option String) :
    bankValidate bo
        { cart_items := items, customer := customer,
          payment_info := payment, voucher_code := v }
      = bankValidate bo
          { cart_items := items, customer := customer,
            payment_info := payment, voucher_code := none } := rfl

theorem bankCalculate_voucher_irrelevant (bo : List (String × BankOfferConfig))
    (items : List CartItem) (customer : CustomerProfile)
    (payment : Option PaymentInfo) (v : Option String) :
    bankCalculate bo
        { cart_items := items, customer := customer,
          payment_info := payment, voucher_code := v }
      = bankCalculate bo
          { cart_items := items, customer := customer,
            payment_info := payment, voucher_code := none } := rfl

theorem addIf_errors (r : ValidationResult) (c : Prop) [Decidable c] (e : String) :
    (r.addIf c e).errors = r.errors ++ (if c then [e] else []) := by
  unfold ValidationResult.addIf ValidationResult.add_error
  split_ifs <;> simp

theorem addIf_valid (r : ValidationResult) (c : Prop) [Decidable c] (e : String) :
    (r.addIf c e).is_valid = (if c then false else r.is_valid) := by
  unfold ValidationResult.addIf ValidationResult.add_error
  split_ifs <;> simp

theorem voucherValidate_collects (vouchers : List (String × VoucherConfig))
    (ctx : DiscountContext) (code : String) (voucher : VoucherConfig)
    (hvc : ctx.voucher_code = some code) (hcode : code ≠ "")
    (hlk : vouchers.lookup code = some voucher) :
    (voucherValidate vouchers ctx).errors = voucherCheckErrors voucher ctx ∧
    ((voucherValidate vouchers ctx).is_valid = true ↔
      (voucherValidate vouchers ctx).errors = []) := by
  have htr : strTruthy ctx.voucher_code = true := by simp [hvc, strTruthy, hcode]
  have hget : ctx.voucher_code.getD "" = code := by simp [hvc]
  rcases hmc : voucher.min_customer_tier with _ | req <;>
  · constructor
    · simp only [voucherValidate, voucherCheckErrors, htr, hget, hlk, hmc, Bool.not_true,
        Bool.false_eq_true, if_false, addIf_errors, List.nil_append, List.append_nil,
        List.append_assoc]
    · simp only [voucherValidate, htr, hget, hlk, hmc, Bool.not_true, Bool.false_eq_true,
        if_false, addIf_errors, addIf_valid, List.nil_append]
      split_ifs <;> simp

theorem stacked_invalid_voucher (svc : DiscountService) (cart : List CartItem)
    (customer : CustomerProfile) (payment : Option PaymentInfo) (code : String)
    (hcode : code ≠ "")
    (hinv : (voucherValidate svc.vouchers
      { cart_items := (stackedCore svc cart customer payment (some code)).cart_after,
        customer := customer, payment_info := payment,
        voucher_code := some code }).is_valid = false) :
    (stackedCore svc cart customer payment (some code)).applied_discounts
      = (stackedCore svc cart customer payment none).applied_discounts ∧
    (stackedCore svc cart customer payment (some code)).bc_msgs
      = (stackedCore svc cart customer payment none).bc_msgs ∧
    (stackedCore svc cart customer payment (some code)).bank_msgs
      = (stackedCore svc cart customer payment none).bank_msgs ∧
    (stackedCore svc cart customer payment (some code)).voucher_msgs
      = ["Voucher validation failed: " ++
          (voucherValidate svc.vouchers
            { cart_items := (stackedCore svc cart customer payment (some code)).cart_after,
              customer := customer, payment_info := payment,
              voucher_code := some code }).error_message] ∧
    (stackedCore svc cart customer payment none).voucher_msgs = [] ∧
    (calcStacked svc cart customer payment (some code)).final_price
      = (calcStacked svc cart customer payment none).final_price := by
  have htr : strTruthy (some code) = true := by simp [strTruthy, hcode]
  have hinv' : (voucherValidate svc.vouchers
      { cart_items := (categoryCalculate svc.category_discounts
          (brandCalculate svc.brand_discounts cart).1).1,
        customer := customer, payment_info := payment,
        voucher_code := some code }).is_valid = false := hinv
  have happ : (stackedCore svc cart customer payment (some code)).applied_discounts
      = (stackedCore svc cart customer payment none).applied_discounts := by
    simp [stackedCore, htr, hinv', strTruthy, hcode,
      bankValidate_voucher_irrelevant, bankCalculate_voucher_irrelevant]
  refine ⟨happ, rfl, ?_, ?_, ?_, ?_⟩
  · simp [stackedCore, bankValidate_voucher_irrelevant, bankCalculate_voucher_irrelevant]
  · simp [stackedCore, htr, hinv', strTruthy, hcode]
  · simp [stackedCore, strTruthy]
  · have horig : (stackedCore svc cart customer payment (some code)).original_total
        = (stackedCore svc cart customer payment none).original_total := rfl
    simp only [calcStacked, happ, horig]

/-- Claim C5.  Once the voucher code is known, `validate` runs all five
checks (minimum cart value, excluded brands, allowed categories, excluded
brand tiers, minimum customer tier) without short-circuiting — its error
list is exactly the concatenation of the five independently computed check
results — and the verdict is valid iff no reason was collected.  In
stacking mode an invalid voucher only contributes a single
"Voucher validation failed" note to the message log, leaving the recorded
discounts, the other message groups and the final price exactly as in the
same run without a voucher code. -/
theorem claim5_voucher_validation :
    (∀ (vouchers : List (String × VoucherConfig)) (ctx : DiscountContext)
        (code : String) (voucher : VoucherConfig),
      ctx.voucher_code = some code → code ≠ "" →
      vouchers.lookup code = some voucher →
      (voucherValidate vouchers ctx).errors = voucherCheckErrors voucher ctx ∧
      ((voucherValidate vouchers ctx).is_valid = true ↔
        (voucherValidate vouchers ctx).errors = [])) ∧
    (∀ (svc : DiscountService) (cart : List CartItem) (customer : CustomerProfile)
        (payment : Option PaymentInfo) (code : String),
      code ≠ "" →
      (voucherValidate svc.vouchers
        { cart_items := (stackedCore svc cart customer payment (some code)).cart_after,
          customer := customer, payment_info := payment,
          voucher_code := some code }).is_valid = false →
      (stackedCore svc cart customer payment (some code)).applied_discounts
        = (stackedCore svc cart customer payment none).applied_discounts ∧
      (stackedCore svc cart customer payment (some code)).bc_msgs
        = (stackedCore svc cart customer payment none).bc_msgs ∧
      (stackedCore svc cart customer payment (some code)).bank_msgs
        = (stackedCore svc cart customer payment none).bank_msgs ∧
      (stackedCore svc cart customer payment (some code)).voucher_msgs
        = ["Voucher validation failed: " ++
            (voucherValidate svc.vouchers
              { cart_items := (stackedCore svc cart customer payment (some code)).cart_after,
                customer := customer, payment_info := payment,
                voucher_code := some code }).error_message] ∧
      (stackedCore svc cart customer payment none).voucher_msgs = [] ∧
      (calcStacked svc cart customer payment (some code)).final_price
        = (calcStacked svc cart customer payment none).final_price) :=
  ⟨fun vouchers ctx code voucher hvc hcode hlk =>
      voucherValidate_collects vouchers ctx code voucher hvc hcode hlk,
   fun svc cart customer payment code hcode hinv =>
      stacked_invalid_voucher svc cart customer payment code hcode hinv⟩

/-- Witness for claim C5: the premium-excluded SUPER69 voucher on a NIKE
(premium) cart — known code, failing tier check — instantiating both the
check-collection part and the graceful-degradation part. -/
theorem claim5_voucher_validation_witness :
    ((voucherValidate VOUCHERS
        { cart_items := nikeCart, customer := NEW_CUSTOMER,
          voucher_code := some "SUPER69" }).errors
      = voucherCheckErrors
          { code := "SUPER69", discount_percentage := 69, min_cart_value := some 100,
            excluded_brand_tiers := [BrandTier.premium] }
          { cart_items := nikeCart, customer := NEW_CUSTOMER,
            voucher_code := some "SUPER69" } ∧
      ((voucherValidate VOUCHERS
        { cart_items := nikeCart, customer := NEW_CUSTOMER,
          voucher_code := some "SUPER69" }).is_valid = true ↔
        (voucherValidate VOUCHERS
          { cart_items := nikeCart, customer := NEW_CUSTOMER,
            voucher_code := some "SUPER69" }).errors = [])) ∧
    ((stackedCore stackingService nikeCart NEW_CUSTOMER none (some "SUPER69")).applied_discounts
        = (stackedCore stackingService nikeCart NEW_CUSTOMER none none).applied_discounts ∧
      (stackedCore stackingService nikeCart NEW_CUSTOMER none (some "SUPER69")).bc_msgs
        = (stackedCore stackingService nikeCart NEW_CUSTOMER none none).bc_msgs ∧
      (stackedCore stackingService nikeCart NEW_CUSTOMER none (some "SUPER69")).bank_msgs
        = (stackedCore stackingService nikeCart NEW_CUSTOMER none none).bank_msgs ∧
      (stackedCore stackingService nikeCart NEW_CUSTOMER none (some "SUPER69")).voucher_msgs
        = ["Voucher validation failed: " ++
            (voucherValidate stackingService.vouchers
              { cart_items := (stackedCore stackingService nikeCart NEW_CUSTOMER none
                  (some "SUPER69")).cart_after,
                customer := NEW_CUSTOMER, payment_info := none,
                voucher_code := some "SUPER69" }).error_message] ∧
      (stackedCore stackingService nikeCart NEW_CUSTOMER none none).voucher_msgs = [] ∧
      (calcStacked stackingService nikeCart NEW_CUSTOMER none (some "SUPER69")).final_price
        = (calcStacked stackingService nikeCart NEW_CUSTOMER none none).final_price) :=
  ⟨claim5_voucher_validation.1 VOUCHERS
      { cart_items := nikeCart, customer := NEW_CUSTOMER, voucher_code := some "SUPER69" }
      "SUPER69"
      { code := "SUPER69", discount_percentage := 69, min_cart_value := some 100,
        excluded_brand_tiers := [BrandTier.premium] }
      rfl (by decide) (by decide),
   claim5_voucher_validation.2 stackingService nikeCart NEW_CUSTOMER none "SUPER69"
      (by decide) (by decide)⟩



theorem bestCandidates_amounts (svc : DiscountService) (cart : List CartItem)
    (customer : CustomerProfile) (payment : Option PaymentInfo) (vc : Option String) :
    ∀ p ∈ bestCandidates svc cart customer payment vc,
      p.2 = (brandCalculate svc.brand_discounts cart).2 ∨
      p.2 = (categoryCalculate svc.category_discounts cart).2 ∨
      p.2 = voucherCalculate svc.vouchers
        { cart_items := cart, customer := customer, voucher_code := vc } ∨
      p.2 = bankCalculate svc.bank_offers
        { cart_items := cart, customer := customer, payment_info := payment } := by
  intro p hp
  simp only [bestCandidates, List.mem_append] at hp
  rcases hp with ((hp | hp) | hp) | hp
  · left
    split at hp <;> simp_all
  · right; left
    split at hp <;> simp_all
  · right; right; left
    repeat' split at hp
    all_goals simp_all
  · right; right; right
    repeat' split at hp
    all_goals simp_all

theorem calcBest_applied_len (svc : DiscountService) (cart : List CartItem)
    (customer : CustomerProfile) (payment : Option PaymentInfo) (vc : Option String) :
    (calcBest svc cart customer payment vc).applied_discounts.length ≤ 1 := by
  simp only [calcBest]
  split <;> simp

/-- Claim C4.  In best-discount mode every candidate amount is the result of
running exactly one strategy on the (copied) original cart — the brand and
category candidates are both computed from the caller's cart, the voucher
and bank candidates from fresh contexts over that same cart, with no
sequential compounding — and at most one candidate is applied.  On the
scenario cart the candidates are brand 400 and category 100 (10% of the
original 1000, not of the brand-discounted 600), brand wins, the final
price is 600, and the breakdown has exactly the one entry. -/
theorem claim4_best_mode_isolation :
    (∀ (svc : DiscountService) (cart : List CartItem) (customer : CustomerProfile)
        (payment : Option PaymentInfo) (vc : Option String),
      ∀ p ∈ bestCandidates svc cart customer payment vc,
        p.2 = (brandCalculate svc.brand_discounts cart).2 ∨
        p.2 = (categoryCalculate svc.category_discounts cart).2 ∨
        p.2 = voucherCalculate svc.vouchers
          { cart_items := cart, customer := customer, voucher_code := vc } ∨
        p.2 = bankCalculate svc.bank_offers
          { cart_items := cart, customer := customer, payment_info := payment }) ∧
    (∀ (svc : DiscountService) (cart : List CartItem) (customer : CustomerProfile)
        (payment : Option PaymentInfo) (vc : Option String),
      (calcBest svc cart customer payment vc).applied_discounts.length ≤ 1) ∧
    bestCandidates bestDiscountService scenarioCart NEW_CUSTOMER none none
      = [("Brand Discount", 400), ("Category Discount", 100)] ∧
    (calculate_cart_discounts bestDiscountService scenarioCart NEW_CUSTOMER none none).applied_discounts
      = [("Brand Discount", 400)] ∧
    (calculate_cart_discounts bestDiscountService scenarioCart NEW_CUSTOMER none none).final_price
      = 600 := by
  exact ⟨bestCandidates_amounts, calcBest_applied_len, by decide, by decide, by decide⟩

/-- Witness for claim C4: the brand candidate of the scenario cart, with its
membership hypothesis discharged concretely. -/
theorem claim4_best_mode_isolation_witness :
    ("Brand Discount", (400:ℚ)) ∈
        bestCandidates bestDiscountService scenarioCart NEW_CUSTOMER none none ∧
    (("Brand Discount", (400:ℚ)).2
        = (brandCalculate bestDiscountService.brand_discounts scenarioCart).2 ∨
      ("Brand Discount", (400:ℚ)).2
        = (categoryCalculate bestDiscountService.category_discounts scenarioCart).2 ∨
      ("Brand Discount", (400:ℚ)).2 = voucherCalculate bestDiscountService.vouchers
        { cart_items := scenarioCart, customer := NEW_CUSTOMER, voucher_code := none } ∨
      ("Brand Discount", (400:ℚ)).2 = bankCalculate bestDiscountService.bank_offers
        { cart_items := scenarioCart, customer := NEW_CUSTOMER, payment_info := none }) :=
  ⟨by decide, claim4_best_mode_isolation.1 bestDiscountService scenarioCart NEW_CUSTOMER
      none none ("Brand Discount", (400:ℚ)) (by decide)⟩

theorem selectBest_first_max (t : List (String × ℚ)) :
    ∀ (c : String × ℚ),
      ∃ kv, t.foldl maxStep (some c) = some kv ∧
        ((kv = c ∧ ∀ p ∈ t, p.2 ≤ c.2) ∨
          (∃ l1 l2, t = l1 ++ kv :: l2 ∧ c.2 < kv.2 ∧
            (∀ p ∈ l1, p.2 < kv.2) ∧ (∀ p ∈ l2, p.2 ≤ kv.2))) := by
  induction t with
  | nil => intro c; exact ⟨c, rfl, Or.inl ⟨rfl, by simp⟩⟩
  | cons p t ih =>
      intro c
      rw [List.foldl_cons]
      by_cases hgt : p.2 > c.2
      · rw [show maxStep (some c) p = some p by simp [maxStep, hgt]]
        obtain ⟨kv, hfold, hcases⟩ := ih p
        refine ⟨kv, hfold, ?_⟩
        rcases hcases with ⟨rfl, hall⟩ | ⟨l1, l2, rfl, hlt, h1, h2⟩
        · exact Or.inr ⟨[], t, rfl, hgt, by simp, hall⟩
        · refine Or.inr ⟨p :: l1, l2, rfl, lt_trans hgt hlt, ?_, h2⟩
          intro q hq
          rcases List.mem_cons.mp hq with rfl | hq'
          · exact hlt
          · exact h1 q hq'
      · rw [show maxStep (some c) p = some c by simp [maxStep, hgt]]
        obtain ⟨kv, hfold, hcases⟩ := ih c
        refine ⟨kv, hfold, ?_⟩
        rcases hcases with ⟨rfl, hall⟩ | ⟨l1, l2, rfl, hlt, h1, h2⟩
        · refine Or.inl ⟨rfl, ?_⟩
          intro q hq
          rcases List.mem_cons.mp hq with rfl | hq'
          · exact not_lt.mp hgt
          · exact hall q hq'
        · refine Or.inr ⟨p :: l1, l2, rfl, hlt, ?_, h2⟩
          intro q hq
          rcases List.mem_cons.mp hq with rfl | hq'
          · exact lt_of_le_of_lt (not_lt.mp hgt) hlt
          · exact h1 q hq'

/-- Claim C10.  In best-discount mode the applied candidate is the first
element of the insertion-ordered candidate list (built in the fixed order
brand, category, voucher, bank) that attains the maximum amount: everything
before it is strictly smaller, everything after it no larger.  On a service
where brand and category candidates tie at 100, the brand discount — the
earlier of the tied pair — is applied. -/
theorem claim10_tie_first_seen :
    (∀ (svc : DiscountService) (cart : List CartItem) (customer : CustomerProfile)
        (payment : Option PaymentInfo) (vc : Option String),
      bestCandidates svc cart customer payment vc ≠ [] →
      ∃ kv l1 l2,
        bestCandidates svc cart customer payment vc = l1 ++ kv :: l2 ∧
        (∀ p ∈ l1, p.2 < kv.2) ∧ (∀ p ∈ l2, p.2 ≤ kv.2) ∧
        (calcBest svc cart customer payment vc).applied_discounts = [kv]) ∧
    bestCandidates tieService scenarioCart NEW_CUSTOMER none none
      = [("Brand Discount", 100), ("Category Discount", 100)] ∧
    (calculate_cart_discounts tieService scenarioCart NEW_CUSTOMER none none).applied_discounts
      = [("Brand Discount", 100)] := by
  refine ⟨?_, by decide, by decide⟩
  intro svc cart customer payment vc hne
  rcases hc : bestCandidates svc cart customer payment vc with _ | ⟨p, t⟩
  · exact absurd hc hne
  · obtain ⟨kv, hfold, hcases⟩ := selectBest_first_max t p
    have hsel : selectBest (bestCandidates svc cart customer payment vc) = some kv := by
      rw [hc]
      show (p :: t).foldl maxStep none = some kv
      rw [List.foldl_cons]
      exact hfold
    have happ : (calcBest svc cart customer payment vc).applied_discounts = [kv] := by
      simp only [calcBest, hsel]
    rcases hcases with ⟨rfl, hall⟩ | ⟨l1, l2, hsplit, hlt, h1, h2⟩
    · exact ⟨kv, [], t, by simp [hc], by simp, hall, happ⟩
    · refine ⟨kv, p :: l1, l2, by simp [hc, hsplit], ?_, h2, happ⟩
      intro q hq
      rcases List.mem_cons.mp hq with rfl | hq'
      · exact hlt
      · exact h1 q hq'

/-- Witness for claim C10 at the tied brand/category configuration. -/
theorem claim10_tie_first_seen_witness :
    ∃ kv l1 l2,
      bestCandidates tieService scenarioCart NEW_CUSTOMER none none = l1 ++ kv :: l2 ∧
      (∀ p ∈ l1, p.2 < kv.2) ∧ (∀ p ∈ l2, p.2 ≤ kv.2) ∧
      (calcBest tieService scenarioCart NEW_CUSTOMER none none).applied_discounts = [kv] :=
  claim10_tie_first_seen.1 tieService scenarioCart NEW_CUSTOMER none none (by decide)



/-- Claim C6 (amended).  `BankOfferStrategy.calculate` returns 0 when
payment info is absent; when the bank name is absent or empty; when the
bank has no configured offer; when a non-empty required card type is
configured and does not match; and when a non-zero minimum transaction
value is configured and the cart total is below it.  (The truthiness
qualifications are forced by the counterexample: a configured minimum of 0,
like an empty required card type, is skipped.)  Concretely, the DEBIT
payment against the HDFC offer requiring CREDIT yields amount 0 and an
invalid verdict whose reason mentions the required card type. -/
theorem claim6_bank_zero_cases :
    (∀ bo (ctx : DiscountContext), ctx.payment_info = none →
      bankCalculate bo ctx = 0) ∧
    (∀ bo (ctx : DiscountContext) p, ctx.payment_info = some p →
      strTruthy p.bank_name = false → bankCalculate bo ctx = 0) ∧
    (∀ bo (ctx : DiscountContext) p, ctx.payment_info = some p →
      bo.lookup (p.bank_name.getD "") = none → bankCalculate bo ctx = 0) ∧
    (∀ bo (ctx : DiscountContext) p offer, ctx.payment_info = some p →
      bo.lookup (p.bank_name.getD "") = some offer →
      strTruthy offer.card_type = true → p.card_type ≠ offer.card_type →
      bankCalculate bo ctx = 0) ∧
    (∀ bo (ctx : DiscountContext) p offer m, ctx.payment_info = some p →
      bo.lookup (p.bank_name.getD "") = some offer →
      offer.min_transaction_value = some m → m ≠ 0 →
      cartTotal ctx.cart_items < m → bankCalculate bo ctx = 0) ∧
    (bankCalculate BANK_OFFERS
      { cart_items := scenarioCart, customer := NEW_CUSTOMER,
        payment_info := some HDFC_DEBIT_PAYMENT } = 0) ∧
    ((bankValidate BANK_OFFERS
      { cart_items := scenarioCart, customer := NEW_CUSTOMER,
        payment_info := some HDFC_DEBIT_PAYMENT }).is_valid = false) ∧
    ((bankValidate BANK_OFFERS
      { cart_items := scenarioCart, customer := NEW_CUSTOMER,
        payment_info := some HDFC_DEBIT_PAYMENT }).errors.any
          (fun e => mentions e "CREDIT") = true) := by
  refine ⟨?_, ?_, ?_, ?_, ?_, by decide, by decide, by decide⟩
  · intro bo ctx h
    simp [bankCalculate, h]
  · intro bo ctx p hctx hbn
    simp [bankCalculate, hctx, hbn]
  · intro bo ctx p hctx hlk
    simp [bankCalculate, hctx, hlk]
  · intro bo ctx p offer hctx hlk hct hne
    simp [bankCalculate, hctx, hlk, hct, hne]
  · intro bo ctx p offer m hctx hlk hm hm0 hlt
    cases htr : strTruthy p.bank_name
    · simp [bankCalculate, hctx, htr]
    · simp [bankCalculate, hctx, htr, hlk, hm, decTruthy, hm0, hlt]

/-- Witness for the amended claim C6: a 100-rupee cart is below the HDFC
offer's 500 minimum, so a matching CREDIT payment still gets amount 0. -/
theorem claim6_bank_zero_cases_witness :
    bankCalculate BANK_OFFERS
      { cart_items :=
          [{ product :=
               { id := "S1", brand := "X", brand_tier := BrandTier.regular,
                 category := "Y", base_price := 100, current_price := 100 },
             quantity := 1, size := "M" }],
        customer := NEW_CUSTOMER,
        payment_info := some { method := "CARD", bank_name := some "HDFC",
                               card_type := some "CREDIT" } } = 0 := by
  exact claim6_bank_zero_cases.2.2.2.2.1 BANK_OFFERS
    { cart_items :=
        [{ product :=
             { id := "S1", brand := "X", brand_tier := BrandTier.regular,
               category := "Y", base_price := 100, current_price := 100 },
           quantity := 1, size := "M" }],
      customer := NEW_CUSTOMER,
      payment_info := some { method := "CARD", bank_name := some "HDFC",
                             card_type := some "CREDIT" } }
    { method := "CARD", bank_name := some "HDFC", card_type := some "CREDIT" }
    { bank_name := "HDFC", discount_percentage := 15, card_type := some "CREDIT",
      min_transaction_value := some 500 }
    500 (by decide) (by decide) (by decide) (by decide) (by decide)

theorem brandCalcItem_bounds (bd : List (String × ℚ)) (it : CartItem)
    (hpct : ∀ kv ∈ bd, 0 ≤ kv.2 ∧ kv.2 ≤ 100)
    (h0 : 0 ≤ it.product.current_price)
    (h1 : it.product.current_price ≤ it.product.base_price) :
    (brandCalcItem bd it).1.product.base_price = it.product.base_price ∧
    -(1/200) ≤ (brandCalcItem bd it).1.product.current_price ∧
    (brandCalcItem bd it).1.product.current_price
      ≤ (brandCalcItem bd it).1.product.base_price := by
  have hb : 0 ≤ it.product.base_price := le_trans h0 h1
  rcases hlk : bd.lookup it.product.brand with _ | pct
  · refine ⟨?_, ?_, ?_⟩ <;> simp only [brandCalcItem, hlk] <;> first | rfl | linarith
  · obtain ⟨hp0, hp100⟩ := hpct _ (lookup_mem hlk)
    have hle := q2_le (it.product.base_price * pct / 100)
    have hmul : it.product.base_price * pct ≤ it.product.base_price * 100 :=
      mul_le_mul_of_nonneg_left hp100 hb
    have hq0 := q2_nonneg (div_nonneg (mul_nonneg hb hp0) (by norm_num : (0:ℚ) ≤ 100))
    refine ⟨?_, ?_, ?_⟩ <;> simp only [brandCalcItem, hlk] <;> first | rfl | linarith

theorem categoryCalcItem_bounds (cd : List (String × ℚ)) (it : CartItem)
    (hpct : ∀ kv ∈ cd, 0 ≤ kv.2 ∧ kv.2 ≤ 100)
    (hb : 0 ≤ it.product.base_price)
    (hlow : -(1/200) ≤ it.product.current_price)
    (h1 : it.product.current_price ≤ it.product.base_price) :
    (categoryCalcItem cd it).1.product.current_price
      ≤ (categoryCalcItem cd it).1.product.base_price := by
  rcases hlk : cd.lookup it.product.category with _ | pct
  · simp only [categoryCalcItem, hlk]
    exact h1
  · obtain ⟨hp0, hp100⟩ := hpct _ (lookup_mem hlk)
    simp only [categoryCalcItem, hlk]
    rcases le_or_lt 0 it.product.current_price with hc | hc
    · have := q2_nonneg (div_nonneg (mul_nonneg hc hp0) (by norm_num : (0:ℚ) ≤ 100))
      linarith
    · have hmul : it.product.current_price * pct ≤ 0 := by nlinarith
      have hstep : it.product.current_price * 100 ≤ it.product.current_price * pct :=
        mul_le_mul_of_nonpos_left hp100 (le_of_lt hc)
      have hz : q2 (it.product.current_price * pct / 100) = 0 :=
        q2_eq_zero (by linarith) (by linarith)
      rw [hz]
      linarith

theorem brandCalculate_item_bounds (bd : List (String × ℚ)) (cart : List CartItem)
    (hcart : ∀ it ∈ cart,
      0 ≤ it.product.current_price ∧ it.product.current_price ≤ it.product.base_price)
    (hpct : ∀ kv ∈ bd, 0 ≤ kv.2 ∧ kv.2 ≤ 100) :
    ∀ it ∈ (brandCalculate bd cart).1,
      0 ≤ it.product.base_price ∧ -(1/200) ≤ it.product.current_price ∧
        it.product.current_price ≤ it.product.base_price := by
  intro it hit
  simp only [brandCalculate, List.map_map, List.mem_map, Function.comp] at hit
  obtain ⟨it0, hit0, rfl⟩ := hit
  obtain ⟨h0, h1⟩ := hcart it0 hit0
  have hb := le_trans h0 h1
  have hres := brandCalcItem_bounds bd it0 hpct h0 h1
  exact ⟨hres.1 ▸ hb, hres.2.1, hres.2.2⟩

/-- Claim C7 (amended).  For a cart whose items initially satisfy
`0 ≤ current_price ≤ base_price` and configured percentages between 0 and
100, every item's current price stays at most its base price after the
brand rule and after the subsequent category rule.  (The non-negativity
qualification is forced by the counterexample: for a negative-priced item
the rules can raise `current_price` above `base_price`.) -/
theorem claim7_current_le_base (bd cd : List (String × ℚ)) (cart : List CartItem)
    (hcart : ∀ it ∈ cart,
      0 ≤ it.product.current_price ∧ it.product.current_price ≤ it.product.base_price)
    (hbd : ∀ kv ∈ bd, 0 ≤ kv.2 ∧ kv.2 ≤ 100)
    (hcd : ∀ kv ∈ cd, 0 ≤ kv.2 ∧ kv.2 ≤ 100) :
    (∀ it ∈ (brandCalculate bd cart).1,
      it.product.current_price ≤ it.product.base_price) ∧
    (∀ it ∈ (categoryCalculate cd (brandCalculate bd cart).1).1,
      it.product.current_price ≤ it.product.base_price) := by
  have hbrand := brandCalculate_item_bounds bd cart hcart hbd
  refine ⟨fun it hit => (hbrand it hit).2.2, ?_⟩
  intro it hit
  simp only [categoryCalculate, List.map_map, List.mem_map, Function.comp] at hit
  obtain ⟨it1, hit1, rfl⟩ := hit
  obtain ⟨hb, hlow, h1⟩ := hbrand it1 hit1
  exact categoryCalcItem_bounds cd it1 hcd hb hlow h1

/-- Witness for the amended claim C7 at the literal scenario. -/
theorem claim7_current_le_base_witness :
    (∀ it ∈ (brandCalculate BRAND_DISCOUNTS scenarioCart).1,
      it.product.current_price ≤ it.product.base_price) ∧
    (∀ it ∈ (categoryCalculate CATEGORY_DISCOUNTS
        (brandCalculate BRAND_DISCOUNTS scenarioCart).1).1,
      it.product.current_price ≤ it.product.base_price) := by
  exact claim7_current_le_base BRAND_DISCOUNTS CATEGORY_DISCOUNTS scenarioCart
    (by decide) (by decide) (by decide)



/-- Claim C3.  On the literal assignment scenario (one PUMA T-shirt at base
price 1000, PUMA configured at 40%, T-shirts at 10%), stacking-mode pricing
with no voucher and no payment info records exactly a 400.00 brand discount
and a 60.00 category discount for a final price of 540.00; adding the ICICI
payment (10% offer, minimum 100, any card type) additionally records a 54.00
bank discount for a final price of 486.00. -/
theorem claim3_stacking_scenario :
    (calculate_cart_discounts stackingService scenarioCart NEW_CUSTOMER none none).applied_discounts
        = [("Brand Discount", 400), ("Category Discount", 60)] ∧
    (calculate_cart_discounts stackingService scenarioCart NEW_CUSTOMER none none).original_price = 1000 ∧
    (calculate_cart_discounts stackingService scenarioCart NEW_CUSTOMER none none).final_price = 540 ∧
    (calculate_cart_discounts stackingService scenarioCart NEW_CUSTOMER
        (some ICICI_CARD_PAYMENT) none).applied_discounts
        = [("Brand Discount", 400), ("Category Discount", 60), ("Bank Offer (ICICI)", 54)] ∧
    (calculate_cart_discounts stackingService scenarioCart NEW_CUSTOMER
        (some ICICI_CARD_PAYMENT) none).final_price = 486 := by
  decide

/-- Claim C1 (divergence witness).  On the stacked run with the valid
voucher `TSHIRT15` (15%) and the ICICI payment (10%), the post
brand/category cart total is 540 and the recorded voucher discount is 81,
so the claimed bank discount — 10% of the voucher-netted subtotal 459 —
would be 45.90; the code instead records 54.00, i.e. 10% of the un-netted
total: the voucher-netted subtotal the source computes is dead code. -/
theorem claim1_bank_ignores_voucher_netting :
    (cartTotal (stackedCore stackingService scenarioCart NEW_CUSTOMER
        (some ICICI_CARD_PAYMENT) (some "TSHIRT15")).cart_after = 540) ∧
    ((calculate_cart_discounts stackingService scenarioCart NEW_CUSTOMER
        (some ICICI_CARD_PAYMENT) (some "TSHIRT15")).applied_discounts.lookup
          "Voucher (TSHIRT15)" = some 81) ∧
    (q2 ((540 - 81) * 10 / 100) = 459/10) ∧
    ((calculate_cart_discounts stackingService scenarioCart NEW_CUSTOMER
        (some ICICI_CARD_PAYMENT) (some "TSHIRT15")).applied_discounts.lookup
          "Bank Offer (ICICI)" = some 54) ∧
    (54 : ℚ) ≠ 459/10 := by
  decide

/-- Claim C2 (counterexample).  A cart whose single item has a negative
list price satisfies neither validation nor rejection; the stacked pipeline
clamps the final price to 0, which exceeds the recorded original price of
-100, refuting `final_price ≤ original_price` for arbitrary carts. -/
theorem claim2_counterexample :
    (calculate_cart_discounts stackingService negCart NEW_CUSTOMER none none).original_price = -100 ∧
    (calculate_cart_discounts stackingService negCart NEW_CUSTOMER none none).final_price = 0 ∧
    ¬ ((calculate_cart_discounts stackingService negCart NEW_CUSTOMER none none).final_price
        ≤ (calculate_cart_discounts stackingService negCart NEW_CUSTOMER none none).original_price) := by
  decide

/-- Claim C6 (counterexample).  With a configured minimum transaction value
of 0 — which Python's truthiness test treats like an absent minimum — and a
cart total of -10, the cart total is below the configured minimum yet
`calculate` returns -1, not 0. -/
theorem claim6_counterexample :
    cartTotal zeroMinCtx.cart_items = -10 ∧
    (zeroMinOffers.lookup "ZB").map BankOfferConfig.min_transaction_value
      = some (some 0) ∧
    cartTotal zeroMinCtx.cart_items < 0 ∧
    bankCalculate zeroMinOffers zeroMinCtx = -1 ∧
    bankCalculate zeroMinOffers zeroMinCtx ≠ 0 := by
  decide

/-- Claim C7 (counterexample).  An item with `base_price = current_price =
-100` satisfies the claimed precondition `current_price ≤ base_price`, and
its brand percentage 40 lies in [0, 100]; after the brand rule the current
price is -60, which exceeds the base price. -/
theorem claim7_counterexample :
    (negBaseItem.product.current_price ≤ negBaseItem.product.base_price) ∧
    (∀ kv ∈ negBrandTable, 0 ≤ kv.2 ∧ kv.2 ≤ 100) ∧
    ¬ (∀ it ∈ (brandCalculate negBrandTable [negBaseItem]).1,
        it.product.current_price ≤ it.product.base_price) := by
  refine ⟨by decide, by decide, ?_⟩
  intro h
  have := h ((brandCalcItem negBrandTable negBaseItem).1) (by decide)
  revert this
  decide


end Spec2Proof
